import Mathlib

/-!
Shallow embedding of `python/lsst/obs/monocam/monocamMapper.py`
(class `MonocamMapper`) and proofs about its hook methods.

Python dictionaries (data identifiers, FITS headers) are modelled as
association lists of string keys and `PyVal` values; Python exceptions are
modelled with `Except PyError`.  External collaborators that the mapper only
calls (the `CameraMapper` of the host framework, `afw` image factories, the
`fakeWcs` of the `hack` module) are modelled from their use sites and from the
specification, and are marked as such in their doc comments.
-/

set_option autoImplicit false
set_option linter.unusedVariables false

namespace ObsMonocam

/-- A Python value as it occurs in data identifiers and headers: an integer
or a string. -/
inductive PyVal where
  | vint (n : Int)
  | vstr (s : String)
deriving DecidableEq, Repr

/-- A Python exception, by kind and message. -/
inductive PyError where
  | keyError (msg : String)
  | nameError (msg : String)
  | runtimeError (msg : String)
  | valueError (msg : String)
  | attributeError (msg : String)
  | indexError (msg : String)
deriving DecidableEq, Repr

/-- A Python `dict` with string keys (data identifiers, metadata headers),
modelled as an association list; lookups find the first matching key. -/
def PyDict : Type := List (String × PyVal)

/-- `d.get(key)` / `d[key]` lookup: first entry whose key matches. -/
def pyGet : PyDict → String → Option PyVal
  | [], _ => none
  | (k, w) :: rest, key => if k = key then some w else pyGet rest key

/-- `d[key] = v` / `md.set(key, v)`: replace the value at `key`, or append
the pair if the key is absent. -/
def pySet : PyDict → String → PyVal → PyDict
  | [], key, v => [(key, v)]
  | (k, w) :: rest, key, v =>
    if k = key then (key, v) :: rest else (k, w) :: pySet rest key v

/-- Drop leading whitespace characters, as the Python `int(str)` conversion ignores
surrounding whitespace. -/
def dropWS (cs : List Char) : List Char :=
  cs.dropWhile (fun c => c = ' ' || c = '\t' || c = '\n' || c = '\r')

/-- Strip whitespace from both ends of a character list. -/
def trimChars (cs : List Char) : List Char :=
  ((dropWS cs).reverse |> dropWS).reverse

/-- Read a non-empty list of decimal digits as a natural number; `none` if
the list is empty or contains a non-digit. -/
def digitsToNat (cs : List Char) : Option Nat :=
  if cs ≠ [] ∧ cs.all (fun c => c.isDigit) then
    some (cs.foldl (fun n c => 10 * n + (c.toNat - 48)) 0)
  else none

/-- The Python `int(s)` / `long(s)` conversion on a string: strip whitespace, allow one
optional sign, then require a non-empty run of decimal digits; `none` models
the `ValueError` raised on non-numeric text. -/
def pyIntOfString (s : String) : Option Int :=
  match trimChars s.toList with
  | '+' :: rest => (digitsToNat rest).map (fun n => (n : Int))
  | '-' :: rest => (digitsToNat rest).map (fun n => -(n : Int))
  | l => (digitsToNat l).map (fun n => (n : Int))

/-- Does `hay` contain `needle` as a contiguous run (the Python `in` test on
strings)?  Defined on character lists. -/
def startsWithL : List Char → List Char → Bool
  | [], _ => true
  | _ :: _, [] => false
  | a :: as, b :: bs => a = b && startsWithL as bs

/-- `containsL needle hay` is true when `needle` occurs contiguously in
`hay`. -/
def containsL (needle : List Char) : List Char → Bool
  | [] => needle.isEmpty
  | c :: rest => startsWithL needle (c :: rest) || containsL needle rest

/-- The Python `needle in hay` substring test. -/
def strContains (hay needle : String) : Bool :=
  containsL needle.toList hay.toList

/-- An `afw` image-like object as it flows through the mapper: a plain
image, a decorated image (an image plus metadata, offering `getImage`), a
masked image (image plus mask and variance planes), or an exposure (a
masked image plus calibration data carrying an exposure time).  Pixel data
is abstracted to a single `Nat` payload. -/
inductive AfwItem where
  | image (px : Nat)
  | decoratedImage (px : Nat)
  | maskedImage (px : Nat)
  | exposure (px : Nat) (exptime : ℚ)
deriving DecidableEq, Repr

/-- `hasattr(item, "getImage")`: true for decorated images, matching the
source comment "For DecoratedImageX". -/
def hasGetImage : AfwItem → Bool
  | .decoratedImage _ => true
  | _ => false

/-- `item.getImage()`: strip the decoration from a decorated image. -/
def getImage : AfwItem → AfwItem
  | .decoratedImage px => .image px
  | x => x

/-- `afwImage.makeMaskedImage`: wrap a plain image with mask and variance
planes.  The source applies it only to plain images. -/
def makeMaskedImage : AfwItem → AfwItem
  | .image px => .maskedImage px
  | x => x

/-- `afwImage.makeExposure`: wrap a masked image into an exposure, with a
fresh calibration object (exposure time `0`).  The source applies it only
to masked images. -/
def makeExposure : AfwItem → AfwItem
  | .maskedImage px => .exposure px 0
  | x => x

/-- Is this object of the Exposure shape? -/
def isExposure : AfwItem → Bool
  | .exposure _ _ => true
  | _ => false

/-- `exp.getCalib().setExptime(t)`: overwrite the exposure-time calibration
field; on a non-exposure the attribute access fails. -/
def setExptime : AfwItem → ℚ → Except PyError AfwItem
  | .exposure px _, t => .ok (.exposure px t)
  | _, _ => .error (.attributeError "getCalib")

/-- One entry of the calibration-mapping table of the host framework: the
declared in-memory python representation string (`mapping.python`). -/
structure CalibMapping where
  python : String
deriving DecidableEq, Repr

/-- A location handle, resolving to a list of file paths
(`location.getLocations()`). -/
def Location : Type := List String

/-- Modelled from the spec: `CameraMapper._standardizeExposure` lives in
the host framework (`lsst.daf.butlerUtils`), not in this repository; per
the spec it applies instrument-generic standardization to an exposure and
returns it in the Exposure shape, so it is modelled as returning the given
exposure. -/
def _standardizeExposure (mapping : CalibMapping) (exp : AfwItem)
    (dataId : PyDict) : AfwItem :=
  exp

/-- Lines 155-164 of `standardizeCalib`: convert the item read by the
butler according to the declared python representation of its calibration
mapping.  The three branches test substring containment in order
(`"MaskedImage" in mapping.python`, then `"Image"`, then `"Exposure"`);
any other representation raises `RuntimeError`. -/
def standardizeCalibConvert (mapping : CalibMapping) (item : AfwItem) :
    Except PyError AfwItem :=
  if strContains mapping.python "MaskedImage" then
    .ok (makeExposure item)
  else if strContains mapping.python "Image" then
    let item := if hasGetImage item then getImage item else item
    .ok (makeExposure (makeMaskedImage item))
  else if strContains mapping.python "Exposure" then
    .ok item
  else
    .error (.runtimeError ("Unrecognised python type: " ++ mapping.python))

/-- `MonocamMapper.standardizeCalib(dataset, item, dataId)`.
`calibrations` is the host-provided calibration-mapping table
(`self.calibrations`, a `dict` raising `KeyError` on a missing dataset) and
`hasStdAttr dataset` models `hasattr(CameraMapper, "std_" + dataset)`.
When that test succeeds the source evaluates `getattr(parent, ...)` where
`parent` is an undefined name, so the call raises `NameError`; otherwise it
returns `self._standardizeExposure(mapping, exp, dataId)`. -/
def standardizeCalib (calibrations : String → Option CalibMapping)
    (hasStdAttr : String → Bool) (dataset : String) (item : AfwItem)
    (dataId : PyDict) : Except PyError AfwItem :=
  match calibrations dataset with
  | none => .error (.keyError dataset)
  | some mapping =>
    match standardizeCalibConvert mapping item with
    | .error e => .error e
    | .ok exp =>
      if hasStdAttr dataset then
        .error (.nameError "undefined name parent")
      else
        .ok (_standardizeExposure mapping exp dataId)

/-- `MonocamMapper.std_bias`: delegate to `standardizeCalib` with dataset
name `"bias"`. -/
def std_bias (calibrations : String → Option CalibMapping)
    (hasStdAttr : String → Bool) (item : AfwItem) (dataId : PyDict) :
    Except PyError AfwItem :=
  standardizeCalib calibrations hasStdAttr "bias" item dataId

/-- `MonocamMapper.std_dark`: delegate to `standardizeCalib` with dataset
name `"dark"`, then force the exposure-time calibration field to `1.0`. -/
def std_dark (calibrations : String → Option CalibMapping)
    (hasStdAttr : String → Bool) (item : AfwItem) (dataId : PyDict) :
    Except PyError AfwItem :=
  match standardizeCalib calibrations hasStdAttr "dark" item dataId with
  | .error e => .error e
  | .ok exp => setExptime exp 1

/-- `MonocamMapper.std_flat`: delegate to `standardizeCalib` with dataset
name `"flat"`. -/
def std_flat (calibrations : String → Option CalibMapping)
    (hasStdAttr : String → Bool) (item : AfwItem) (dataId : PyDict) :
    Except PyError AfwItem :=
  standardizeCalib calibrations hasStdAttr "flat" item dataId

/-- `MonocamMapper.std_fringe`: as written in the source (line 182), it
delegates to `standardizeCalib` with dataset name `"flat"`, not
`"fringe"`. -/
def std_fringe (calibrations : String → Option CalibMapping)
    (hasStdAttr : String → Bool) (item : AfwItem) (dataId : PyDict) :
    Except PyError AfwItem :=
  standardizeCalib calibrations hasStdAttr "flat" item dataId

/-- `MonocamMapper.validate(dataId)`: if a `visit` key is present and its
value is not an `int`, coerce it with `int(...)` and store it back;
otherwise return the identifier unchanged.  A non-numeric string raises
`ValueError`. -/
def validate (dataId : PyDict) : Except PyError PyDict :=
  match pyGet dataId "visit" with
  | none => .ok dataId
  | some (.vint _) => .ok dataId
  | some (.vstr s) =>
    match pyIntOfString s with
    | some n => .ok (pySet dataId "visit" (.vint n))
    | none =>
      .error (.valueError ("invalid literal for int() with base 10: " ++ s))

/-- `MonocamMapper._computeCcdExposureId(dataId)`: read the visit entry of the data identifier
(`KeyError` if absent) and widen it with `long(...)` (identity on an
integer, decimal parse on a string). -/
def _computeCcdExposureId (dataId : PyDict) : Except PyError Int :=
  match pyGet dataId "visit" with
  | none => .error (.keyError "visit")
  | some (.vint n) => .ok n
  | some (.vstr s) =>
    match pyIntOfString s with
    | some n => .ok n
    | none =>
      .error (.valueError ("invalid literal for long() with base 10: " ++ s))

/-- `MonocamMapper.bypass_ccdExposureId`: expose `_computeCcdExposureId`
through the bypass-read hook. -/
def bypass_ccdExposureId (datasetType pythonType : String)
    (location : Location) (dataId : PyDict) : Except PyError Int :=
  _computeCcdExposureId dataId

/-- `MonocamMapper.bypass_ccdExposureId_bits`: the identifier occupies 41
bits, for every input. -/
def bypass_ccdExposureId_bits (datasetType pythonType : String)
    (location : Location) (dataId : PyDict) : Nat :=
  41

/-- `MonocamMapper.bypass_raw_md`: read the primary header of the first
file of the location, then merge in the keys synthesized by the fake-WCS
generator, overwriting by name.  `readMetadata` models
`afwImage.readMetadata(filename, 1)`; `wcsNames` and `wcsGet` are modelled
from the spec: `fakeWcs` (module `hack`, not in this repository) is the
external synthetic-coordinate-system generator whose FITS metadata the
loop walks via `wcs.names()` and `wcs.get(key)`. -/
def bypass_raw_md (readMetadata : String → PyDict)
    (wcsNames : PyDict → List String) (wcsGet : PyDict → String → PyVal)
    (datasetType pythonType : String) (location : Location)
    (dataId : PyDict) : Except PyError PyDict :=
  match location with
  | [] => .error (.indexError "list index out of range")
  | filename :: _ =>
    let md := readMetadata filename
    .ok ((wcsNames md).foldl (fun m key => pySet m key (wcsGet md key)) md)

/-- `MonocamMapper.bypass_defects`: always the empty list. -/
def bypass_defects (datasetType pythonType : String) (location : Location)
    (dataId : PyDict) : List AfwItem :=
  []

/-- The static filter-name → integer-ID table registered at construction
(`self.filterIdMap`). -/
def filterIdMap : PyDict :=
  [("u", .vint 0), ("g", .vint 1), ("r", .vint 2), ("i", .vint 3),
   ("z", .vint 4), ("y", .vint 5), ("i2", .vint 5)]

/-! ### Helper lemmas about dictionary lookup and update -/

/-- Looking up the key just set yields the new value. -/
theorem pyGet_pySet_self (m : PyDict) (k : String) (v : PyVal) :
    pyGet (pySet m k v) k = some v := by
  induction m with
  | nil => simp [pySet, pyGet]
  | cons a rest ih =>
    obtain ⟨ak, aw⟩ := a
    by_cases h : ak = k <;> simp [pySet, pyGet, h, ih]

/-- Setting one key leaves lookups of every other key unchanged. -/
theorem pyGet_pySet_ne (m : PyDict) (k k' : String) (v : PyVal)
    (h : k' ≠ k) : pyGet (pySet m k v) k' = pyGet m k' := by
  have hkk : k ≠ k' := fun hh => h hh.symm
  induction m with
  | nil => simp [pySet, pyGet, hkk]
  | cons a rest ih =>
    obtain ⟨ak, aw⟩ := a
    by_cases hak : ak = k
    · subst hak
      simp [pySet, pyGet, hkk]
    · simp [pySet, pyGet, hak, ih]

/-- Folding `pySet` over a list of keys: a key in the list ends with its
generated value, any other key keeps its original binding. -/
theorem pyGet_foldl_set (g : String → PyVal) (keys : List String)
    (m : PyDict) (k : String) :
    pyGet (keys.foldl (fun acc key => pySet acc key (g key)) m) k
      = if k ∈ keys then some (g k) else pyGet m k := by
  induction keys generalizing m with
  | nil => simp
  | cons a as ih =>
    simp only [List.foldl_cons]
    rw [ih]
    by_cases hmem : k ∈ as
    · simp [hmem]
    · by_cases hk : k = a
      · subst hk
        simp [hmem, pyGet_pySet_self]
      · simp [hmem, hk, pyGet_pySet_ne _ _ _ _ hk]

/-! ### Claim theorems -/

/-- C6: for a data identifier whose `visit` value is a numeric string,
`validate` replaces `visit` by the parsed integer and leaves every other
key unchanged; `validate` is idempotent; and a data identifier without a
`visit` key passes through unchanged with no error. -/
theorem validate_spec (d : PyDict) :
    (∀ s n, pyGet d "visit" = some (.vstr s) → pyIntOfString s = some n →
      validate d = .ok (pySet d "visit" (.vint n)) ∧
        ∀ k, k ≠ "visit" → pyGet (pySet d "visit" (.vint n)) k = pyGet d k) ∧
    (∀ d', validate d = .ok d' → validate d' = .ok d') ∧
    (pyGet d "visit" = none → validate d = .ok d) := by
  refine ⟨?_, ?_, ?_⟩
  · intro s n hs hn
    refine ⟨by simp [validate, hs, hn], ?_⟩
    intro k hk
    exact pyGet_pySet_ne _ _ _ _ hk
  · intro d' h
    cases hv : pyGet d "visit" with
    | none =>
      simp [validate, hv] at h
      subst h
      simp [validate, hv]
    | some v =>
      cases v with
      | vint m =>
        simp [validate, hv] at h
        subst h
        simp [validate, hv]
      | vstr s =>
        cases hp : pyIntOfString s with
        | none => simp [validate, hv, hp] at h
        | some n =>
          simp [validate, hv, hp] at h
          subst h
          simp [validate, pyGet_pySet_self]
  · intro hv
    simp [validate, hv]

/-- Witness for C6 at concrete inputs. -/
theorem validate_spec_witness :
    validate [("visit", PyVal.vstr "12"), ("ccd", PyVal.vint 0)]
        = .ok [("visit", PyVal.vint 12), ("ccd", PyVal.vint 0)] ∧
    validate [("ccd", PyVal.vint 0)] = .ok [("ccd", PyVal.vint 0)] :=
  ⟨((validate_spec [("visit", PyVal.vstr "12"), ("ccd", PyVal.vint 0)]).1
      "12" 12 (by decide) (by decide)).1,
   (validate_spec [("ccd", PyVal.vint 0)]).2.2 (by decide)⟩

/-- C7: for a data identifier whose `visit` value is non-numeric text,
`validate` raises `ValueError`. -/
theorem validate_nonnumeric (d : PyDict) (s : String)
    (hs : pyGet d "visit" = some (.vstr s))
    (hbad : pyIntOfString s = none) :
    validate d
      = .error (.valueError ("invalid literal for int() with base 10: " ++ s)) := by
  simp [validate, hs, hbad]

/-- Witness for C7 at a concrete input. -/
theorem validate_nonnumeric_witness :
    validate [("visit", PyVal.vstr "abc")]
      = .error (.valueError ("invalid literal for int() with base 10: " ++ "abc")) :=
  validate_nonnumeric [("visit", PyVal.vstr "abc")] "abc" (by decide) (by decide)

/-- C8: on integer `visit` values representable in 41 bits,
`_computeCcdExposureId` is injective, the produced identifier fits in 41
bits, and `bypass_ccdExposureId_bits` returns `41` for every input. -/
theorem ccdExposureId_spec (d1 d2 : PyDict) (v1 v2 : Int)
    (h1 : pyGet d1 "visit" = some (.vint v1))
    (h2 : pyGet d2 "visit" = some (.vint v2))
    (hr1 : 0 ≤ v1 ∧ v1 < 2 ^ 41) (hr2 : 0 ≤ v2 ∧ v2 < 2 ^ 41) :
    (v1 ≠ v2 → _computeCcdExposureId d1 ≠ _computeCcdExposureId d2) ∧
    (_computeCcdExposureId d1 = .ok v1 ∧ 0 ≤ v1 ∧ v1 < 2 ^ 41) ∧
    (∀ dt pt loc di, bypass_ccdExposureId_bits dt pt loc di = 41) := by
  refine ⟨?_, ⟨by simp [_computeCcdExposureId, h1], hr1⟩, fun _ _ _ _ => rfl⟩
  intro hne
  simp [_computeCcdExposureId, h1, h2, hne]

/-- Witness for C8 at concrete inputs. -/
theorem ccdExposureId_spec_witness :
    _computeCcdExposureId [("visit", PyVal.vint 0)]
        ≠ _computeCcdExposureId [("visit", PyVal.vint 1)] ∧
    _computeCcdExposureId [("visit", PyVal.vint 0)] = .ok 0 := by
  have h := ccdExposureId_spec [("visit", PyVal.vint 0)]
    [("visit", PyVal.vint 1)] 0 1 (by decide) (by decide)
    (by norm_num) (by norm_num)
  exact ⟨h.1 (by decide), h.2.1.1⟩

/-- C2: whenever the base class `CameraMapper` defines an attribute named
`"std_" + dataset`, `standardizeCalib` raises an error instead of returning
the delegated standardization result: in particular, when the calibration
mapping exists and its representation is recognized, the error is the
`NameError` from evaluating the undefined name `parent`. -/
theorem standardizeCalib_parent_undefined
    (calibrations : String → Option CalibMapping)
    (hasStdAttr : String → Bool) (dataset : String) (item : AfwItem)
    (dataId : PyDict) (h : hasStdAttr dataset = true) :
    (∃ e, standardizeCalib calibrations hasStdAttr dataset item dataId
        = .error e) ∧
    (∀ m exp, calibrations dataset = some m →
      standardizeCalibConvert m item = .ok exp →
      standardizeCalib calibrations hasStdAttr dataset item dataId
        = .error (.nameError "undefined name parent")) := by
  constructor
  · cases hc : calibrations dataset with
    | none => exact ⟨.keyError dataset, by simp [standardizeCalib, hc]⟩
    | some m =>
      cases hcv : standardizeCalibConvert m item with
      | error e => exact ⟨e, by simp [standardizeCalib, hc, hcv]⟩
      | ok exp =>
        exact ⟨.nameError "undefined name parent",
          by simp [standardizeCalib, hc, hcv, h]⟩
  · intro m exp hm hconv
    simp [standardizeCalib, hm, hconv, h]

/-- Witness for C2 at concrete inputs. -/
theorem standardizeCalib_parent_undefined_witness :
    standardizeCalib (fun _ => some ⟨"ImageF"⟩) (fun _ => true) "bias"
        (.image 0) [] = .error (.nameError "undefined name parent") :=
  (standardizeCalib_parent_undefined (fun _ => some ⟨"ImageF"⟩)
      (fun _ => true) "bias" (.image 0) [] rfl).2
    ⟨"ImageF"⟩ (.exposure 0 0) rfl rfl

/-- C3: dispatch on the declared representation string.  A plain-`Image`
(or decorated) representation wraps the item into a masked image and then
into an exposure; a `MaskedImage` representation wraps directly into an
exposure; an `Exposure` representation passes the item through unchanged;
in each case the returned object has the Exposure shape. -/
theorem standardizeCalib_dispatch
    (calibrations : String → Option CalibMapping)
    (hasStdAttr : String → Bool) (dataset : String) (dataId : PyDict)
    (m : CalibMapping) (hm : calibrations dataset = some m)
    (hstd : hasStdAttr dataset = false) :
    (strContains m.python "MaskedImage" = false →
      strContains m.python "Image" = true →
      ∀ px,
        standardizeCalib calibrations hasStdAttr dataset (.image px) dataId
            = .ok (.exposure px 0) ∧
        standardizeCalib calibrations hasStdAttr dataset
            (.decoratedImage px) dataId = .ok (.exposure px 0) ∧
        ∀ r, standardizeCalib calibrations hasStdAttr dataset (.image px)
            dataId = .ok r → isExposure r = true) ∧
    (strContains m.python "MaskedImage" = true →
      ∀ px,
        standardizeCalib calibrations hasStdAttr dataset (.maskedImage px)
            dataId = .ok (.exposure px 0) ∧
        ∀ r, standardizeCalib calibrations hasStdAttr dataset
            (.maskedImage px) dataId = .ok r → isExposure r = true) ∧
    (strContains m.python "MaskedImage" = false →
      strContains m.python "Image" = false →
      strContains m.python "Exposure" = true →
      (∀ item, standardizeCalib calibrations hasStdAttr dataset item dataId
          = .ok item) ∧
      ∀ px t r, standardizeCalib calibrations hasStdAttr dataset
          (.exposure px t) dataId = .ok r → isExposure r = true) := by
  refine ⟨?_, ?_, ?_⟩
  · intro hMI hI px
    refine ⟨?_, ?_, ?_⟩
    · simp [standardizeCalib, standardizeCalibConvert, hm, hstd, hMI, hI,
        hasGetImage, getImage, makeMaskedImage, makeExposure,
        _standardizeExposure]
    · simp [standardizeCalib, standardizeCalibConvert, hm, hstd, hMI, hI,
        hasGetImage, getImage, makeMaskedImage, makeExposure,
        _standardizeExposure]
    · intro r hr
      simp [standardizeCalib, standardizeCalibConvert, hm, hstd, hMI, hI,
        hasGetImage, getImage, makeMaskedImage, makeExposure,
        _standardizeExposure] at hr
      subst hr
      rfl
  · intro hMI px
    refine ⟨?_, ?_⟩
    · simp [standardizeCalib, standardizeCalibConvert, hm, hstd, hMI,
        makeExposure, _standardizeExposure]
    · intro r hr
      simp [standardizeCalib, standardizeCalibConvert, hm, hstd, hMI,
        makeExposure, _standardizeExposure] at hr
      subst hr
      rfl
  · intro hMI hI hE
    refine ⟨?_, ?_⟩
    · intro item
      simp [standardizeCalib, standardizeCalibConvert, hm, hstd, hMI, hI,
        hE, _standardizeExposure]
    · intro px t r hr
      simp [standardizeCalib, standardizeCalibConvert, hm, hstd, hMI, hI,
        hE, _standardizeExposure] at hr
      subst hr
      rfl

/-- Witness for C3 at concrete inputs. -/
theorem standardizeCalib_dispatch_witness :
    standardizeCalib (fun _ => some ⟨"ImageF"⟩) (fun _ => false) "flat"
        (.image 4) [] = .ok (.exposure 4 0) ∧
    standardizeCalib (fun _ => some ⟨"MaskedImageF"⟩) (fun _ => false)
        "flat" (.maskedImage 4) [] = .ok (.exposure 4 0) ∧
    standardizeCalib (fun _ => some ⟨"ExposureF"⟩) (fun _ => false) "flat"
        (.exposure 4 9) [] = .ok (.exposure 4 9) :=
  ⟨((standardizeCalib_dispatch (fun _ => some ⟨"ImageF"⟩) (fun _ => false)
        "flat" [] ⟨"ImageF"⟩ rfl rfl).1 (by decide) (by decide) 4).1,
   ((standardizeCalib_dispatch (fun _ => some ⟨"MaskedImageF"⟩)
        (fun _ => false) "flat" [] ⟨"MaskedImageF"⟩ rfl rfl).2.1
      (by decide) 4).1,
   ((standardizeCalib_dispatch (fun _ => some ⟨"ExposureF"⟩)
        (fun _ => false) "flat" [] ⟨"ExposureF"⟩ rfl rfl).2.2
      (by decide) (by decide) (by decide)).1 (.exposure 4 9)⟩

/-- C4: a declared representation matching none of `MaskedImage`, `Image`
or `Exposure` makes `standardizeCalib` raise the unrecognized-type
`RuntimeError`, with no partial result. -/
theorem standardizeCalib_unrecognized
    (calibrations : String → Option CalibMapping)
    (hasStdAttr : String → Bool) (dataset : String) (item : AfwItem)
    (dataId : PyDict) (m : CalibMapping)
    (hm : calibrations dataset = some m)
    (h1 : strContains m.python "MaskedImage" = false)
    (h2 : strContains m.python "Image" = false)
    (h3 : strContains m.python "Exposure" = false) :
    standardizeCalib calibrations hasStdAttr dataset item dataId
      = .error (.runtimeError ("Unrecognised python type: " ++ m.python)) := by
  simp [standardizeCalib, standardizeCalibConvert, hm, h1, h2, h3]

/-- Witness for C4 at a concrete input. -/
theorem standardizeCalib_unrecognized_witness :
    standardizeCalib (fun _ => some ⟨"TanWcs"⟩) (fun _ => false) "bias"
        (.image 0) []
      = .error (.runtimeError ("Unrecognised python type: " ++ "TanWcs")) :=
  standardizeCalib_unrecognized (fun _ => some ⟨"TanWcs"⟩) (fun _ => false)
    "bias" (.image 0) [] ⟨"TanWcs"⟩ rfl (by decide) (by decide) (by decide)

/-- C5: whenever `std_dark` returns an exposure, its exposure-time
calibration field is exactly `1`, whatever exposure time the item carried. -/
theorem std_dark_exptime (calibrations : String → Option CalibMapping)
    (hasStdAttr : String → Bool) (item : AfwItem) (dataId : PyDict)
    (e : AfwItem)
    (h : std_dark calibrations hasStdAttr item dataId = .ok e) :
    ∃ px, e = .exposure px 1 := by
  unfold std_dark at h
  cases hs : standardizeCalib calibrations hasStdAttr "dark" item dataId with
  | error e' => rw [hs] at h; exact absurd h (by simp)
  | ok exp =>
    rw [hs] at h
    cases exp with
    | exposure px t =>
      refine ⟨px, ?_⟩
      simp [setExptime] at h
      exact h.symm
    | image px => exact absurd h (by simp [setExptime])
    | decoratedImage px => exact absurd h (by simp [setExptime])
    | maskedImage px => exact absurd h (by simp [setExptime])

/-- Witness for C5 at a concrete input: a dark frame stored as a plain
image, and a dark frame stored as an exposure with recorded exposure time
`30`, both standardize to exposure time `1`. -/
theorem std_dark_exptime_witness :
    (∃ px, AfwItem.exposure 7 1 = .exposure px 1) ∧
    std_dark (fun _ => some ⟨"ExposureF"⟩) (fun _ => false)
        (.exposure 7 30) [] = .ok (.exposure 7 1) :=
  ⟨std_dark_exptime (fun _ => some ⟨"ImageF"⟩) (fun _ => false) (.image 7)
      [] (.exposure 7 1) rfl,
   rfl⟩

/-- C9: the header returned by `bypass_raw_md` holds, at every key the
synthetic-WCS generator produced, the value the generator produced
(overwriting any same-named original key), and keeps the original value at
every other key. -/
theorem bypass_raw_md_merge (readMetadata : String → PyDict)
    (wcsNames : PyDict → List String) (wcsGet : PyDict → String → PyVal)
    (dt pt : String) (filename : String) (rest : List String)
    (dataId : PyDict) (r : PyDict) (key : String)
    (h : bypass_raw_md readMetadata wcsNames wcsGet dt pt
        (filename :: rest) dataId = .ok r) :
    (key ∈ wcsNames (readMetadata filename) →
      pyGet r key = some (wcsGet (readMetadata filename) key)) ∧
    (key ∉ wcsNames (readMetadata filename) →
      pyGet r key = pyGet (readMetadata filename) key) := by
  simp only [bypass_raw_md, Except.ok.injEq] at h
  subst h
  constructor
  · intro hmem
    rw [pyGet_foldl_set]
    simp [hmem]
  · intro hmem
    rw [pyGet_foldl_set]
    simp [hmem]

/-- Witness for C9 at concrete inputs: the generator overwrites the header
key `B` and adds `C`; the untouched key `A` keeps its original value. -/
theorem bypass_raw_md_merge_witness :
    pyGet [("A", PyVal.vint 1), ("B", PyVal.vstr "w"), ("C", PyVal.vstr "w")]
        "B" = some (PyVal.vstr "w") ∧
    pyGet [("A", PyVal.vint 1), ("B", PyVal.vstr "w"), ("C", PyVal.vstr "w")]
        "A" = some (PyVal.vint 1) :=
  ⟨(bypass_raw_md_merge
      (fun _ => [("A", PyVal.vint 1), ("B", PyVal.vint 2)])
      (fun _ => ["B", "C"]) (fun _ _ => PyVal.vstr "w") "raw" "py" "f.fits"
      [] [] [("A", PyVal.vint 1), ("B", PyVal.vstr "w"), ("C", PyVal.vstr "w")]
      "B" rfl).1 (by decide),
   (bypass_raw_md_merge
      (fun _ => [("A", PyVal.vint 1), ("B", PyVal.vint 2)])
      (fun _ => ["B", "C"]) (fun _ _ => PyVal.vstr "w") "raw" "py" "f.fits"
      [] [] [("A", PyVal.vint 1), ("B", PyVal.vstr "w"), ("C", PyVal.vstr "w")]
      "A" rfl).2 (by decide)⟩

/-- C1: as written, `std_fringe` delegates with dataset name `"flat"`, not
`"fringe"`.  With a calibration table mapping `flat` to an `Image`
representation and `fringe` to an `Exposure` representation, `std_fringe`
follows the `flat` path (wrapping the item) while a delegation with
`"fringe"` would have passed the item through: the two results differ. -/
theorem std_fringe_passes_flat :
    std_fringe
        (fun d => if d = "flat" then some ⟨"ImageF"⟩
          else if d = "fringe" then some ⟨"ExposureF"⟩ else none)
        (fun _ => false) (.image 3) [] = .ok (.exposure 3 0) ∧
    standardizeCalib
        (fun d => if d = "flat" then some ⟨"ImageF"⟩
          else if d = "fringe" then some ⟨"ExposureF"⟩ else none)
        (fun _ => false) "fringe" (.image 3) [] = .ok (.image 3) ∧
    (Except.ok (AfwItem.exposure 3 0) : Except PyError AfwItem)
        ≠ .ok (.image 3) := by
  refine ⟨rfl, rfl, ?_⟩
  intro h
  exact absurd (Except.ok.inj h) (by decide)

/-- C10: the filter table maps `y` and `i2` to the same identifier `5`, so
it is not injective, while `u`, `g`, `r`, `i`, `z` receive the distinct
identifiers `0`..`4`. -/
theorem filterIdMap_conflates_y_i2 :
    (∃ k1 k2, k1 ≠ k2 ∧ pyGet filterIdMap k1 = pyGet filterIdMap k2 ∧
      (pyGet filterIdMap k1).isSome = true) ∧
    pyGet filterIdMap "y" = some (.vint 5) ∧
    pyGet filterIdMap "i2" = some (.vint 5) ∧
    pyGet filterIdMap "u" = some (.vint 0) ∧
    pyGet filterIdMap "g" = some (.vint 1) ∧
    pyGet filterIdMap "r" = some (.vint 2) ∧
    pyGet filterIdMap "i" = some (.vint 3) ∧
    pyGet filterIdMap "z" = some (.vint 4) := by
  refine ⟨⟨"y", "i2", by decide, by decide, by decide⟩, ?_⟩
  refine ⟨by decide, by decide, by decide, by decide, by decide, by decide,
    by decide⟩

end ObsMonocam
